import Mathlib

/-!
Verification of the PCA9685 register-level driver (src/lib.rs).

The driver talks to the chip through an I2C bus handle. We embed each
operation as a pure function from the bytes it reads off the bus (the
current MODE1 / MODE2 / PRESCALE register contents) to the ordered list
of bus-write payloads it emits. A payload is the byte list handed to
`bus.write`: the register address byte followed by the data bytes.
Operations that can panic return `Option`, with `none` for the panic
path. The `f32` arithmetic of `set_pwm_freq` is embedded over `ℚ`, the
ideal real value of each expression, and the final `as u8` cast (which
truncates toward zero a value the code has already clamped into
`[3, 255]`) as `Int.floor` followed by `Int.toNat`.
-/

namespace PCA9685

/-- Mode Register 1 address (source constant `PCA9685_MODE1`). -/
def PCA9685_MODE1 : Nat := 0x00

/-- Mode Register 2 address (source constant `PCA9685_MODE2`). -/
def PCA9685_MODE2 : Nat := 0x01

/-- First channel register: channel 0 ON low byte (source `PCA9685_LED0_ON_L`). -/
def PCA9685_LED0_ON_L : Nat := 0x06

/-- PWM prescaler register address (source `PCA9685_PRESCALE`). -/
def PCA9685_PRESCALE : Nat := 0xFE

/-- MODE1 SLEEP bit (source `MODE1_SLEEP`). -/
def MODE1_SLEEP : Nat := 0x10

/-- MODE1 auto-increment bit (source `MODE1_AI`). -/
def MODE1_AI : Nat := 0x20

/-- MODE1 external-clock bit (source `MODE1_EXTCLK`). -/
def MODE1_EXTCLK : Nat := 0x40

/-- MODE1 RESTART bit (source `MODE1_RESTART`). -/
def MODE1_RESTART : Nat := 0x80

/-- MODE2 totem-pole vs open-drain bit (source `MODE2_OUTDRV`). -/
def MODE2_OUTDRV : Nat := 0x04

/-- Internal oscillator frequency in Hz (source `FREQUENCY_OSCILLATOR`). -/
def FREQUENCY_OSCILLATOR : Nat := 25000000

/-- Minimum prescale value (source `PCA9685_PRESCALE_MIN`). -/
def PCA9685_PRESCALE_MIN : Nat := 3

/-- Maximum prescale value (source `PCA9685_PRESCALE_MAX`). -/
def PCA9685_PRESCALE_MAX : Nat := 255

/-! The bus writes of `set_pwm_freq` (src/lib.rs lines 195-239) and of
`set_ext_clock` (lines 304-339), as functions of the MODE1 byte read at the
start of the operation and of the prescale byte being installed. -/

/-- The MODE1 value `set_pwm_freq` writes before PRESCALE:
`(oldmode * !MODE1_RESTART) | MODE1_SLEEP` (line 215). The source really
multiplies by `!MODE1_RESTART = 0x7F` (release-mode wrapping semantics,
hence the `% 256`); the bitwise or with `MODE1_SLEEP` is unaffected. -/
def pwm_freq_sleep_mode (oldmode : Nat) : Nat :=
  (oldmode * 0x7F) % 256 ||| MODE1_SLEEP

/-- Ordered bus-write payloads of `set_pwm_freq` after the MODE1 read, given
the MODE1 byte read and the prescale byte computed (lines 217-233): sleep
MODE1 write, PRESCALE write, then the original `oldmode` written back. -/
def pwm_freq_writes (oldmode prescale : Nat) : List (List Nat) :=
  [[PCA9685_MODE1, pwm_freq_sleep_mode oldmode],
   [PCA9685_PRESCALE, prescale],
   [PCA9685_MODE1, oldmode]]

/-- The MODE1 value `set_ext_clock` writes before PRESCALE:
`(oldmode & !MODE1_RESTART) | MODE1_SLEEP` (line 313), with
`!MODE1_RESTART = 0x7F`. -/
def ext_clock_sleep_mode (oldmode : Nat) : Nat :=
  (oldmode &&& 0x7F) ||| MODE1_SLEEP

/-- Ordered bus-write payloads of `set_ext_clock` (lines 315-336): sleep MODE1
write, PRESCALE write, then `(newmode & !MODE1_SLEEP) | MODE1_RESTART |
MODE1_AI` with `!MODE1_SLEEP = 0xEF`. -/
def ext_clock_writes (oldmode prescale : Nat) : List (List Nat) :=
  [[PCA9685_MODE1, ext_clock_sleep_mode oldmode],
   [PCA9685_PRESCALE, prescale],
   [PCA9685_MODE1, (ext_clock_sleep_mode oldmode &&& 0xEF) ||| MODE1_RESTART ||| MODE1_AI]]

/-- A MODE1 byte has the SLEEP bit (0x10) set. -/
def sleepSet (v : Nat) : Bool := v &&& MODE1_SLEEP ≠ 0

/-- A MODE2 byte has the OUTDRV bit (0x04) set. -/
def outdrvSet (v : Nat) : Bool := v &&& MODE2_OUTDRV ≠ 0

/-- Walks a list of bus-write payloads tracking the value of the last MODE1
write seen (`last`, `none` before any MODE1 write). Every PRESCALE write must
find a last-written MODE1 value with SLEEP set. -/
def prescaleSafeFrom (last : Option Nat) : List (List Nat) → Bool
  | [] => true
  | w :: ws =>
    match w with
    | reg :: val :: _ =>
      if reg = PCA9685_PRESCALE then
        (match last with
         | some m => sleepSet m
         | none => false) && prescaleSafeFrom last ws
      else if reg = PCA9685_MODE1 then
        prescaleSafeFrom (some val) ws
      else
        prescaleSafeFrom last ws
    | _ => prescaleSafeFrom last ws

/-- A trace is prescale-safe when, starting with no MODE1 write on record,
every PRESCALE write is preceded by a MODE1 write and the last MODE1 value
written before it has SLEEP set. -/
def prescaleSafe (ws : List (List Nat)) : Bool := prescaleSafeFrom none ws

/-! Prescale arithmetic of `set_pwm_freq` (src/lib.rs lines 196-207), embedded
over `ℚ`, the ideal real value of the `f32` expressions. -/

/-- Ideal-real value of line 202:
`((self.oscillator_freq as f32 / (freq * 4096.0)) + 0.5) - 1.0`, evaluated
over `ℚ` with no intermediate rounding. This idealization is only used at
concrete inputs where every f32 step is exact (each intermediate value is
binary32-representable, checked against `f32round` below); the faithful
per-operation-rounding model of the same line is `prescale_val_f32`. -/
def prescale_val (osc : Nat) (freq : ℚ) : ℚ :=
  ((osc : ℚ) / (freq * 4096) + 1/2) - 1

/-- The clamp of lines 203-207: values below `PCA9685_PRESCALE_MIN` become the
minimum, values above `PCA9685_PRESCALE_MAX` become the maximum. -/
def prescale_clamped (osc : Nat) (freq : ℚ) : ℚ :=
  if prescale_val osc freq < (PCA9685_PRESCALE_MIN : ℚ) then (PCA9685_PRESCALE_MIN : ℚ)
  else if prescale_val osc freq > (PCA9685_PRESCALE_MAX : ℚ) then (PCA9685_PRESCALE_MAX : ℚ)
  else prescale_val osc freq

/-- The prescale byte actually written at line 224, `prescale as u8`: the cast
truncates toward zero, and the clamped value lies in `[3, 255]`, where
truncation toward zero agrees with the floor. -/
def prescale_byte (osc : Nat) (freq : ℚ) : Nat :=
  (Int.floor (prescale_clamped osc freq)).toNat

/-- Whole `set_pwm_freq` operation (lines 195-239) as a function of the
tracked oscillator frequency, the target frequency and the MODE1 byte read:
panics (`none`) for `freq < 1.0` or `freq > 3052.0` (lines 196-200),
otherwise emits the three bus writes with the computed prescale byte. -/
def set_pwm_freq (osc : Nat) (freq : ℚ) (oldmode : Nat) : Option (List (List Nat)) :=
  if freq < 1 then none
  else if freq > 3052 then none
  else some (pwm_freq_writes oldmode (prescale_byte osc freq))

/-- Claim C2's formula, following the spec's words: round-half-up of the ideal
value `oscillator_freq / (4096 * freq)`, minus 1, then clamped so that results
below 3 become 3 and results above 255 become 255. -/
def spec_prescale (osc : Nat) (freq : ℚ) : ℤ :=
  let r := Int.floor ((osc : ℚ) / (4096 * freq) + 1/2) - 1
  if r < 3 then 3 else if r > 255 then 255 else r

/-! IEEE-754 binary32 model. `set_pwm_freq` computes with `f32` values, so
line 202 rounds after the cast `oscillator_freq as f32` and after every
arithmetic operation. Every value this driver feeds through that line stays
inside the binary32 normal range, where rounding to nearest with ties to
even is: scale by the power of two that brings the magnitude into
`[2^23, 2^24)`, round to an integer significand, scale back. -/

/-- Round a rational to the nearest integer, ties to the even integer. -/
def roundEven (m : ℚ) : ℤ :=
  if m - ⌊m⌋ < 1/2 then ⌊m⌋
  else if m - ⌊m⌋ > 1/2 then ⌊m⌋ + 1
  else if ⌊m⌋ % 2 = 0 then ⌊m⌋ else ⌊m⌋ + 1

/-- Binary32 rounding of a positive rational in the normal range: round the
24-bit significand to nearest, ties to even. -/
def f32mag (q : ℚ) : ℚ :=
  (roundEven (q / 2 ^ (Int.log 2 q - 23)) : ℚ) * 2 ^ (Int.log 2 q - 23)

/-- Binary32 (f32) rounding, extended to zero and negative values by sign
symmetry. Denormals and overflow are not modelled: every value in this
driver's frequency computation lies in the binary32 normal range. -/
def f32round (q : ℚ) : ℚ :=
  if q = 0 then 0 else if q < 0 then -f32mag (-q) else f32mag q

/-- Faithful f32 evaluation of line 202, rounding after every operation: the
cast `oscillator_freq as f32`, the product `freq * 4096.0`, the division,
the addition of `0.5` and the subtraction of `1.0`. The f32 argument `freq`
is taken as the rational it denotes. -/
def prescale_val_f32 (osc : Nat) (freq : ℚ) : ℚ :=
  f32round (f32round (f32round (f32round (osc:ℚ) / f32round (freq * 4096)) + 1/2) - 1)

/-- The clamp of lines 203-207 on the f32-computed value (f32 comparisons
are exact). -/
def prescale_clamped_f32 (osc : Nat) (freq : ℚ) : ℚ :=
  if prescale_val_f32 osc freq < (PCA9685_PRESCALE_MIN : ℚ) then (PCA9685_PRESCALE_MIN : ℚ)
  else if prescale_val_f32 osc freq > (PCA9685_PRESCALE_MAX : ℚ) then (PCA9685_PRESCALE_MAX : ℚ)
  else prescale_val_f32 osc freq

/-- The prescale byte written at line 224 under the faithful f32 model: the
`as u8` cast truncates toward zero a value clamped into `[3, 255]`, where
truncation agrees with the floor. -/
def prescale_byte_f32 (osc : Nat) (freq : ℚ) : Nat :=
  (Int.floor (prescale_clamped_f32 osc freq)).toNat

/-- Whole `set_pwm_freq` operation (lines 195-239) under the faithful f32
model of its arithmetic: panics (`none`) for `freq < 1.0` or `freq > 3052.0`,
otherwise emits the three bus writes with the f32-computed prescale byte. -/
def set_pwm_freq_f32 (osc : Nat) (freq : ℚ) (oldmode : Nat) : Option (List (List Nat)) :=
  if freq < 1 then none
  else if freq > 3052 then none
  else some (pwm_freq_writes oldmode (prescale_byte_f32 osc freq))

/-! Channel writes: `set_pwm` (lines 270-285) and the `set_pin` helper
(lines 243-266). -/

/-- High byte of a u16 value, as produced by `to_be_bytes` index 0. -/
def u16_hi (v : Nat) : Nat := (v / 256) % 256

/-- Low byte of a u16 value, as produced by `to_be_bytes` index 1. -/
def u16_lo (v : Nat) : Nat := v % 256

/-- The `set_pwm` operation (lines 270-285): the on/off byte pairs are
computed, then the channel bound is checked — the function panics for
`channel > 15` (`none`) before the single bus write; otherwise it writes the
register address `PCA9685_LED0_ON_L + 4 * channel` followed by on-low,
on-high, off-low, off-high (`to_be_bytes` yields the high byte at index 0;
the payload lists index 1 before index 0, so the low byte goes first). -/
def set_pwm (channel onv offv : Nat) : Option (List Nat) :=
  if channel > 15 then none
  else some [PCA9685_LED0_ON_L + 4 * channel,
             u16_lo onv, u16_hi onv, u16_lo offv, u16_hi offv]

/-- The (on, off) tick pair `set_pin` hands to `set_pwm` (lines 243-266),
after clamping an `on_tick` above 4095 down to 4095. -/
def set_pin_ticks (on_tick : Nat) (invert : Bool) : Nat × Nat :=
  let t := if on_tick > 4095 then 4095 else on_tick
  if invert then
    if t = 0 then (4096, 0)
    else if t = 4095 then (0, 4096)
    else (0, 4095 - t)
  else
    if t = 4095 then (4096, 0)
    else if t = 0 then (0, 4096)
    else (0, t)

/-- The `set_pin` operation: forwards the computed tick pair to `set_pwm` on
the same channel. -/
def set_pin (channel on_tick : Nat) (invert : Bool) : Option (List Nat) :=
  set_pwm channel (set_pin_ticks on_tick invert).1 (set_pin_ticks on_tick invert).2

/-- Claim C4's encoding, following the spec's words: after clamping to 4095,
`on_tick = 0` non-inverted or `on_tick = 4095` inverted give ON=0, OFF=4096
(fully off); `on_tick = 4095` non-inverted or `on_tick = 0` inverted give
ON=4096, OFF=0 (fully on); every other value gives ON=0 with OFF=`on_tick`
non-inverted and OFF=`4095 - on_tick` inverted. -/
def spec_pin_ticks (on_tick : Nat) (invert : Bool) : Nat × Nat :=
  let t := min on_tick 4095
  if (invert = false ∧ t = 0) ∨ (invert = true ∧ t = 4095) then (0, 4096)
  else if (invert = false ∧ t = 4095) ∨ (invert = true ∧ t = 0) then (4096, 0)
  else if invert then (0, 4095 - t) else (0, t)

/-! Sleep and output-mode operations. -/

/-- Bus writes of one `sleep` call (lines 131-147), given the MODE1 byte read
(`awake`): the operation unconditionally writes `awake | MODE1_SLEEP` back to
MODE1, whether or not SLEEP was already set — the source has no check. -/
def sleep_writes (awake : Nat) : List (List Nat) :=
  [[PCA9685_MODE1, awake ||| MODE1_SLEEP]]

/-- MODE1 register content after a `sleep` call that read the value `m`: the
byte it wrote. -/
def sleep_result (m : Nat) : Nat := m ||| MODE1_SLEEP

/-- Bus writes of two consecutive `sleep` calls starting from MODE1 value `m`:
the second call reads back the value the first one wrote. -/
def sleep_twice_writes (m : Nat) : List (List Nat) :=
  sleep_writes m ++ sleep_writes (sleep_result m)

/-- Bus writes of `set_output_mode` (lines 344-367), given the MODE2 byte
read: sets OUTDRV for totem-pole, clears it (`!MODE2_OUTDRV = 0xFB`) for open
drain, and unconditionally writes the result back to MODE2 — the source has
no equality check before the write. -/
def set_output_mode_writes (oldmode : Nat) (totempole : Bool) : List (List Nat) :=
  [[PCA9685_MODE2, if totempole then oldmode ||| MODE2_OUTDRV else oldmode &&& 0xFB]]

/-! The tick-length divisor of `write_micros` (lines 167-189). -/

/-- Tick length computed at lines 177-180: `prescale` is the byte read back
from the PRESCALE register, incremented, multiplied by 1_000_000 and divided
(usize integer division) by the tracked oscillator frequency. -/
def pulselength (osc prescale : Nat) : Nat := 1000000 * (prescale + 1) / osc

/-- Pulse computation of `write_micros` (line 182): the microsecond pulse is
divided by `pulselength as u16` (truncation mod 65536); `none` models the
division-by-zero panic raised when that divisor is zero. -/
def write_micros_pulse (osc prescale micros : Nat) : Option Nat :=
  if pulselength osc prescale % 65536 = 0 then none
  else some (micros / (pulselength osc prescale % 65536))

theorem sleepSet_or (x : Nat) : sleepSet (x ||| MODE1_SLEEP) = true := by
  simp only [sleepSet, MODE1_SLEEP, decide_eq_true_eq]
  intro h
  have h4 : ((x ||| 16) &&& 16).testBit 4 = false := by
    rw [h]; exact Nat.zero_testBit 4
  rw [Nat.testBit_and, Nat.testBit_or] at h4
  simp at h4
  exact absurd (h4 (Or.inr (by decide))) (by decide)

/-- Claim C1: in both PRESCALE-writing operations, `set_pwm_freq` and
`set_ext_clock`, the PRESCALE write is preceded by a MODE1 write whose value
has the SLEEP bit set, and no PRESCALE write occurs while the last MODE1
byte written has SLEEP clear: every trace of either operation is
prescale-safe, for every MODE1 byte read and every prescale byte. -/
theorem prescale_writes_only_while_asleep (oldmode prescale : Nat) :
    prescaleSafe (pwm_freq_writes oldmode prescale) = true ∧
    prescaleSafe (ext_clock_writes oldmode prescale) = true := by
  constructor
  · simp only [prescaleSafe, pwm_freq_writes, prescaleSafeFrom,
      PCA9685_MODE1, PCA9685_PRESCALE]
    rw [pwm_freq_sleep_mode, sleepSet_or]
    simp
  · simp only [prescaleSafe, ext_clock_writes, prescaleSafeFrom,
      PCA9685_MODE1, PCA9685_PRESCALE]
    rw [ext_clock_sleep_mode, sleepSet_or]
    simp

theorem floor_prescale_clamped_eq_spec (osc : Nat) (freq : ℚ) :
    Int.floor (prescale_clamped osc freq) = spec_prescale osc freq := by
  have hdiv : (osc : ℚ) / (4096 * freq) = (osc : ℚ) / (freq * 4096) := by
    rw [mul_comm]
  have hq : Int.floor ((osc : ℚ) / (freq * 4096) + 1/2) - 1
      = Int.floor (prescale_val osc freq) := by
    rw [prescale_val]
    have h1 : ((osc : ℚ) / (freq * 4096) + 1/2) - 1
        = ((osc : ℚ) / (freq * 4096) + 1/2) - ((1 : ℤ) : ℚ) := by push_cast; ring
    rw [h1, Int.floor_sub_int]
  rw [spec_prescale, hdiv, hq]
  simp only [prescale_clamped, PCA9685_PRESCALE_MIN, PCA9685_PRESCALE_MAX]
  set p := prescale_val osc freq with hp
  by_cases hA : p < ((3 : ℕ) : ℚ)
  · have hfA : Int.floor p < 3 := by
      have := Int.floor_le p
      have h3 : ((Int.floor p : ℤ) : ℚ) < 3 := by push_cast at hA ⊢; linarith
      exact_mod_cast h3
    rw [if_pos hA, if_pos hfA]
    norm_num
  · have hA3 : ((3 : ℚ)) ≤ p := by push_cast at hA; linarith
    have hfA : ¬ Int.floor p < 3 := by
      have : (3 : ℤ) ≤ Int.floor p := Int.le_floor.mpr (by exact_mod_cast hA3)
      omega
    rw [if_neg hA, if_neg hfA]
    by_cases hB : p > ((255 : ℕ) : ℚ)
    · have h255 : (255 : ℤ) ≤ Int.floor p := by
        apply Int.le_floor.mpr
        push_cast at hB ⊢
        linarith
      rw [if_pos hB]
      by_cases hfB : Int.floor p > 255
      · rw [if_pos hfB]; norm_num
      · rw [if_neg hfB]
        have : Int.floor p = 255 := by omega
        rw [this]; norm_num
    · have hB255 : p ≤ (255 : ℚ) := by push_cast at hB; linarith
      have hfB : ¬ Int.floor p > 255 := by
        have hle : ((Int.floor p : ℤ) : ℚ) ≤ 255 := le_trans (Int.floor_le p) hB255
        have : Int.floor p ≤ (255 : ℤ) := by exact_mod_cast hle
        omega
      rw [if_neg hB, if_neg hfB]

theorem int_log2_eq (q : ℚ) (e : ℤ) (h0 : 0 < q) (h1 : 2^e ≤ q) (h2 : q < 2^(e+1)) :
    Int.log 2 q = e := by
  have hA : e ≤ Int.log 2 q := (Int.zpow_le_iff_le_log (by norm_num) h0).mp h1
  have hB : Int.log 2 q < e + 1 := (Int.lt_zpow_iff_log_lt (by norm_num) h0).mp h2
  omega

theorem roundEven_intCast (n : ℤ) : roundEven ((n:ℚ)) = n := by
  rw [roundEven, Int.floor_intCast]
  norm_num

theorem f32round_rep (n k : ℤ) (h1 : 2^23 ≤ n) (h2 : n < 2^24) :
    f32round ((n:ℚ) * 2^k) = (n:ℚ) * 2^k := by
  have hn0 : (0:ℚ) < (n:ℚ) := by exact_mod_cast lt_of_lt_of_le (by norm_num) h1
  have hk0 : (0:ℚ) < 2^k := by positivity
  have hq0 : (0:ℚ) < (n:ℚ) * 2^k := mul_pos hn0 hk0
  have hlog : Int.log 2 ((n:ℚ) * 2^k) = 23 + k := by
    apply int_log2_eq _ _ hq0
    · rw [zpow_add₀ (by norm_num : (2:ℚ) ≠ 0)]
      apply mul_le_mul_of_nonneg_right _ hk0.le
      calc (2:ℚ)^(23:ℤ) = ((2^23 : ℤ) : ℚ) := by norm_num
        _ ≤ (n:ℚ) := by exact_mod_cast h1
    · rw [show (23 + k + 1 : ℤ) = 24 + k by ring, zpow_add₀ (by norm_num : (2:ℚ) ≠ 0)]
      apply mul_lt_mul_of_pos_right _ hk0
      calc (n:ℚ) < ((2^24:ℤ):ℚ) := by exact_mod_cast h2
        _ = (2:ℚ)^(24:ℤ) := by norm_num
  rw [f32round, if_neg hq0.ne', if_neg (not_lt.mpr hq0.le), f32mag, hlog]
  rw [show (23 + k - 23 : ℤ) = k by ring]
  rw [mul_div_cancel_right₀ _ (ne_of_gt hk0), roundEven_intCast]

theorem f32round_fix (n k : ℤ) (q : ℚ) (h1 : 2^23 ≤ n) (h2 : n < 2^24)
    (heq : ((n:ℚ)) * 2^k = q) : f32round q = q := by
  rw [← heq]
  exact f32round_rep n k h1 h2

theorem f32round_26345471 : f32round ((26345471:ℚ)) = 26345472 := by
  have hlog : Int.log 2 ((26345471:ℚ)) = 24 := by
    apply int_log2_eq _ _ (by norm_num) <;> norm_num
  rw [f32round, if_neg (by norm_num), if_neg (by norm_num), f32mag, hlog]
  rw [show (24 - 23 : ℤ) = 1 by norm_num]
  rw [show (26345471:ℚ) / 2^(1:ℤ) = 26345471/2 by norm_num]
  have hfl : Int.floor ((26345471:ℚ)/2) = 13172735 := by
    rw [Int.floor_eq_iff]
    constructor <;> norm_num
  rw [roundEven, hfl, if_neg (by norm_num), if_neg (by norm_num), if_neg (by decide)]
  norm_num

theorem prescale_val_f32_26345471_64 : prescale_val_f32 26345471 64 = 100 := by
  rw [prescale_val_f32]
  rw [show (((26345471:ℕ)):ℚ) = (26345471:ℚ) by norm_num]
  rw [f32round_26345471]
  rw [f32round_fix 8388608 (-5) ((64:ℚ) * 4096) (by norm_num) (by norm_num) (by norm_num)]
  rw [show (26345472:ℚ) / ((64:ℚ) * 4096) = 201/2 by norm_num]
  rw [f32round_fix 13172736 (-17) ((201:ℚ)/2) (by norm_num) (by norm_num) (by norm_num)]
  rw [show (201:ℚ)/2 + 1/2 = 101 by norm_num]
  rw [f32round_fix 13238272 (-17) ((101:ℚ)) (by norm_num) (by norm_num) (by norm_num)]
  rw [show (101:ℚ) - 1 = 100 by norm_num]
  rw [f32round_fix 13107200 (-17) ((100:ℚ)) (by norm_num) (by norm_num) (by norm_num)]

theorem prescale_byte_f32_26345471_64 : prescale_byte_f32 26345471 64 = 100 := by
  rw [prescale_byte_f32, prescale_clamped_f32, prescale_val_f32_26345471_64,
    if_neg (by norm_num [PCA9685_PRESCALE_MIN]),
    if_neg (by norm_num [PCA9685_PRESCALE_MAX])]
  have hfl : Int.floor ((100:ℚ)) = 100 := by
    rw [Int.floor_eq_iff]
    constructor <;> norm_num
  rw [hfl]
  rfl

theorem spec_prescale_26345471_64 : spec_prescale 26345471 64 = 99 := by
  rw [spec_prescale]
  rw [show ((26345471:ℕ):ℚ) / (4096 * 64) + 1/2 = 26476543/262144 by norm_num]
  have hfl : Int.floor ((26476543:ℚ)/262144) = 100 := by
    rw [Int.floor_eq_iff]
    constructor <;> norm_num
  rw [hfl]
  norm_num

/-- Counterexample to claim C2: the f32 roundings of line 202 can shift the
byte away from the ideal-real formula. With the tracked oscillator frequency
26,345,471 Hz and the accepted target frequency 64 Hz, the cast
`26345471 as f32` rounds to 26,345,472 (a representation tie, rounded to the
even significand), the division then gives exactly 100.5, and the chip is
sent the prescale byte 100 — while round-half-up of the ideal value
26345471 / 262144 = 100.4999961... minus 1 gives 99. -/
theorem set_pwm_freq_f32_deviates_from_ideal :
    set_pwm_freq_f32 26345471 64 0
      = some [[PCA9685_MODE1, 0x10], [PCA9685_PRESCALE, 100], [PCA9685_MODE1, 0]] ∧
    (spec_prescale 26345471 64).toNat = 99 ∧
    prescale_byte_f32 26345471 64 ≠ (spec_prescale 26345471 64).toNat := by
  refine ⟨?_, ?_, ?_⟩
  · rw [set_pwm_freq_f32, if_neg (by norm_num), if_neg (by norm_num),
      prescale_byte_f32_26345471_64]
    decide
  · rw [spec_prescale_26345471_64]
    rfl
  · rw [prescale_byte_f32_26345471_64, spec_prescale_26345471_64]
    decide

/-- Claim C2 as amended: the byte `set_pwm_freq` writes to the PRESCALE
register is line 202 evaluated in f32 — each operation rounded to
nearest-even binary32 — then clamped into `[3, 255]` and truncated; whenever
every one of those f32 steps is exact, that byte equals round-half-up of the
ideal value `oscillator_freq / (4096 * freq)`, minus 1, clamped into
`[3, 255]`. -/
theorem set_pwm_freq_f32_prescale_formula (osc oldmode : Nat) (freq : ℚ)
    (h1 : 1 ≤ freq) (h2 : freq ≤ 3052)
    (hosc : f32round ((osc:ℚ)) = (osc:ℚ))
    (hmul : f32round (freq * 4096) = freq * 4096)
    (hdiv : f32round ((osc:ℚ) / (freq * 4096)) = (osc:ℚ) / (freq * 4096))
    (hadd : f32round ((osc:ℚ) / (freq * 4096) + 1/2) = (osc:ℚ) / (freq * 4096) + 1/2)
    (hsub : f32round ((osc:ℚ) / (freq * 4096) + 1/2 - 1)
      = (osc:ℚ) / (freq * 4096) + 1/2 - 1) :
    ∃ t, set_pwm_freq_f32 osc freq oldmode = some t ∧
      t.get? 1 = some [PCA9685_PRESCALE, (spec_prescale osc freq).toNat] := by
  have hval : prescale_val_f32 osc freq = prescale_val osc freq := by
    rw [prescale_val_f32, hosc, hmul, hdiv, hadd, hsub, prescale_val]
  have hcl : prescale_clamped_f32 osc freq = prescale_clamped osc freq := by
    rw [prescale_clamped_f32, prescale_clamped, hval]
  refine ⟨pwm_freq_writes oldmode (prescale_byte_f32 osc freq), ?_, ?_⟩
  · rw [set_pwm_freq_f32, if_neg (by linarith), if_neg (by linarith)]
  · rw [pwm_freq_writes]
    simp only [List.get?]
    rw [prescale_byte_f32, hcl, floor_prescale_clamped_eq_spec]

/-- Witness for the amended claim C2 at the default 25 MHz oscillator and a
200 Hz target, where every f32 step of line 202 is exact. -/
theorem set_pwm_freq_f32_prescale_formula_witness :
    ∃ t, set_pwm_freq_f32 FREQUENCY_OSCILLATOR 200 0 = some t ∧
      t.get? 1 = some [PCA9685_PRESCALE, (spec_prescale FREQUENCY_OSCILLATOR 200).toNat] := by
  have hc : ((FREQUENCY_OSCILLATOR : ℕ):ℚ) = 25000000 := by
    rw [FREQUENCY_OSCILLATOR]
    norm_num
  apply set_pwm_freq_f32_prescale_formula FREQUENCY_OSCILLATOR 0 200
    (by norm_num) (by norm_num)
  · rw [hc]
    exact f32round_fix 12500000 1 25000000 (by norm_num) (by norm_num) (by norm_num)
  · exact f32round_fix 13107200 (-4) ((200:ℚ) * 4096) (by norm_num) (by norm_num) (by norm_num)
  · rw [hc]
    rw [show (25000000:ℚ) / ((200:ℚ) * 4096) = 15625/512 by norm_num]
    exact f32round_fix 16000000 (-19) ((15625:ℚ)/512) (by norm_num) (by norm_num) (by norm_num)
  · rw [hc]
    rw [show (25000000:ℚ) / ((200:ℚ) * 4096) + 1/2 = 15881/512 by norm_num]
    exact f32round_fix 16262144 (-19) ((15881:ℚ)/512) (by norm_num) (by norm_num) (by norm_num)
  · rw [hc]
    rw [show (25000000:ℚ) / ((200:ℚ) * 4096) + 1/2 - 1 = 15369/512 by norm_num]
    exact f32round_fix 15737856 (-19) ((15369:ℚ)/512) (by norm_num) (by norm_num) (by norm_num)

theorem prescale_byte_25mhz_200hz : prescale_byte FREQUENCY_OSCILLATOR 200 = 30 := by
  have hval : prescale_val FREQUENCY_OSCILLATOR 200 = 15369/512 := by
    rw [prescale_val, FREQUENCY_OSCILLATOR]
    norm_num
  have hfloor : Int.floor ((15369 : ℚ)/512) = 30 := by
    rw [Int.floor_eq_iff]
    constructor <;> norm_num
  rw [prescale_byte, prescale_clamped, hval,
    if_neg (by norm_num [PCA9685_PRESCALE_MIN]),
    if_neg (by norm_num [PCA9685_PRESCALE_MAX]), hfloor]
  rfl

/-- Claim C3 fails on the code: after the PRESCALE write, `set_pwm_freq`
writes back the original MODE1 byte unchanged (line 230) rather than a value
with SLEEP cleared, RESTART set and AI set. At MODE1 read 0x00 and a 200 Hz
target, the restoring MODE1 write carries the byte 0x00, in which RESTART
and AI are both clear. -/
theorem pwm_freq_restore_lacks_restart_ai :
    set_pwm_freq FREQUENCY_OSCILLATOR 200 0
      = some [[PCA9685_MODE1, 0x10], [PCA9685_PRESCALE, 30], [PCA9685_MODE1, 0]] ∧
    0 &&& MODE1_RESTART = 0 ∧ 0 &&& MODE1_AI = 0 := by
  refine ⟨?_, by decide, by decide⟩
  rw [set_pwm_freq, if_neg (by norm_num), if_neg (by norm_num), prescale_byte_25mhz_200hz]
  decide

theorem set_pin_ticks_eq_spec (on_tick : Nat) (invert : Bool) :
    set_pin_ticks on_tick invert = spec_pin_ticks on_tick invert := by
  rw [set_pin_ticks, spec_pin_ticks]
  have hT : (if on_tick > 4095 then 4095 else on_tick) = min on_tick 4095 := by
    split <;> omega
  rw [hT]
  set t := min on_tick 4095 with ht
  cases invert
  · by_cases h0 : t = 0
    · rw [h0]; decide
    · by_cases h4 : t = 4095
      · rw [h4]; decide
      · simp [h0, h4]
  · by_cases h0 : t = 0
    · rw [h0]; decide
    · by_cases h4 : t = 4095
      · rw [h4]; decide
      · simp [h0, h4]

/-- Claim C4: for every channel, `set_pin` encodes its boundaries exactly as
specified: after clamping values above 4095 down to 4095, `on_tick = 0`
non-inverted and `on_tick = 4095` inverted write ON=0, OFF=4096;
`on_tick = 4095` non-inverted and `on_tick = 0` inverted write ON=4096,
OFF=0; every other value writes ON=0 with OFF=`on_tick` non-inverted and
OFF=`4095 - on_tick` inverted. -/
theorem set_pin_boundary_encoding (channel on_tick : Nat) (invert : Bool) :
    set_pin channel on_tick invert
      = set_pwm channel (spec_pin_ticks on_tick invert).1
          (spec_pin_ticks on_tick invert).2 := by
  rw [set_pin, set_pin_ticks_eq_spec]

/-- Counterexample to claim C5: at the default 25 MHz oscillator, the
prescale byte `set_pwm_freq` computes for a 200 Hz target is not 14. -/
theorem set_pwm_freq_200hz_prescale_not_14 :
    prescale_byte FREQUENCY_OSCILLATOR 200 ≠ 14 := by
  rw [prescale_byte_25mhz_200hz]
  decide

/-- Claim C5 as amended: at the default 25 MHz oscillator, `set_pwm_freq`
applied to a 200 Hz target computes the prescale value 30 (0x1E), exactly,
and writes that byte to the PRESCALE register. -/
theorem set_pwm_freq_200hz_writes_prescale_30 :
    ∃ t, set_pwm_freq FREQUENCY_OSCILLATOR 200 0 = some t ∧
      t.get? 1 = some [PCA9685_PRESCALE, 0x1E] := by
  refine ⟨pwm_freq_writes 0 (prescale_byte FREQUENCY_OSCILLATOR 200), ?_, ?_⟩
  · rw [set_pwm_freq, if_neg (by norm_num), if_neg (by norm_num)]
  · rw [prescale_byte_25mhz_200hz]
    rfl

/-- Counterexample to claim C6: with the MODE1 byte read as 0x10 (SLEEP
already set), `sleep` still performs a MODE1 register write, and two
consecutive calls starting from MODE1 value 0 perform two register writes,
not one. -/
theorem sleep_writes_even_when_asleep :
    sleepSet 0x10 = true ∧ (sleep_writes 0x10).length = 1 ∧
    (sleep_twice_writes 0).length = 2 := by decide

/-- Claim C6 as amended: `sleep` always performs exactly one MODE1 register
write, of the value read with SLEEP set, so two consecutive calls perform
two writes; the second call writes the same byte as the first, so sleep is
idempotent in the value written but not in the number of writes. -/
theorem sleep_always_one_write (m : Nat) :
    (sleep_writes m).length = 1 ∧
    (sleep_twice_writes m).length = 2 ∧
    sleep_writes (sleep_result m) = sleep_writes m := by
  refine ⟨rfl, rfl, ?_⟩
  rw [sleep_writes, sleep_writes, sleep_result, Nat.or_assoc]
  simp

/-- Counterexample to claim C7: with MODE2 read as 0x04 (OUTDRV already set)
and totem-pole requested — the requested mode matches the current one — the
operation still performs one MODE2 register write, not zero. -/
theorem output_mode_writes_when_unchanged :
    outdrvSet 0x04 = true ∧ (set_output_mode_writes 0x04 true).length = 1 := by decide

set_option maxRecDepth 4000 in
/-- Claim C7 as amended: `set_output_mode` always performs exactly one MODE2
register write; when the requested mode matches the OUTDRV bit read, the
value written equals the value read (value-level idempotence), but the write
still occurs. -/
theorem set_output_mode_one_write : ∀ oldmode : Nat, oldmode < 256 → ∀ totempole : Bool,
    (set_output_mode_writes oldmode totempole).length = 1 ∧
    (totempole = outdrvSet oldmode →
      set_output_mode_writes oldmode totempole = [[PCA9685_MODE2, oldmode]]) := by decide

/-- Witness for the amended claim C7 at MODE2 byte 0x04 with totem-pole
requested. -/
theorem set_output_mode_one_write_witness :
    (set_output_mode_writes 4 true).length = 1 ∧
    (true = outdrvSet 4 → set_output_mode_writes 4 true = [[PCA9685_MODE2, 4]]) :=
  set_output_mode_one_write 4 (by decide) true

/-- Claim C8 fails on the code: `set_ext_clock` never writes a MODE1 value
with EXTCLK set. At MODE1 read 0x00 and prescale byte 0x1E the trace is
exactly the sleep write 0x10, the PRESCALE write, and the wake write 0xA0,
and both MODE1 values have the EXTCLK bit (0x40) clear. -/
theorem ext_clock_never_sets_extclk :
    ext_clock_writes 0 0x1E
      = [[PCA9685_MODE1, 0x10], [PCA9685_PRESCALE, 0x1E], [PCA9685_MODE1, 0xA0]] ∧
    0x10 &&& MODE1_EXTCLK = 0 ∧ 0xA0 &&& MODE1_EXTCLK = 0 := by decide

/-- Claim C9: `set_pwm` panics for every channel above 15 before any bus
write is attempted (no payload is produced), and for every channel in
[0, 15] produces a single write whose first byte addresses register
0x06 + 4 * channel, followed by the four on/off data bytes. -/
theorem set_pwm_channel_range (channel onv offv : Nat) :
    (15 < channel → set_pwm channel onv offv = none) ∧
    (channel ≤ 15 →
      set_pwm channel onv offv
        = some [PCA9685_LED0_ON_L + 4 * channel,
                u16_lo onv, u16_hi onv, u16_lo offv, u16_hi offv]) := by
  constructor
  · intro h
    rw [set_pwm, if_pos h]
  · intro h
    rw [set_pwm, if_neg (by omega)]

/-- Witness for claim C9: channel 16 is rejected with no write; channel 15
produces the single five-byte payload at register 0x06 + 4 * 15. -/
theorem set_pwm_channel_range_witness :
    set_pwm 16 0 0 = none ∧
    set_pwm 15 4096 0
      = some [PCA9685_LED0_ON_L + 4 * 15, u16_lo 4096, u16_hi 4096, u16_lo 0, u16_hi 0] :=
  ⟨(set_pwm_channel_range 16 0 0).1 (by norm_num),
   (set_pwm_channel_range 15 4096 0).2 (by norm_num)⟩

/-- Counterexample to claim C10: at the default 25 MHz oscillator and the
prescale byte 3 (the minimum legal prescale, read back from the chip after
any high-frequency configuration), the tick-length divisor is zero, and the
pulse division of `write_micros` divides by zero. -/
theorem pulselength_zero_at_default :
    pulselength FREQUENCY_OSCILLATOR 3 = 0 ∧
    write_micros_pulse FREQUENCY_OSCILLATOR 3 1500 = none := by decide

/-- Claim C10 as amended: the tick-length divisor of `write_micros` is zero
exactly when 1,000,000 * (prescale + 1) is below the tracked oscillator
frequency; at the default 25 MHz oscillator this happens for every prescale
byte below 24, so the divisor can be zero and the subsequent division then
panics. -/
theorem pulselength_eq_zero_iff (osc prescale : Nat) (hosc : 0 < osc) :
    pulselength osc prescale = 0 ↔ 1000000 * (prescale + 1) < osc := by
  rw [pulselength]
  exact Nat.div_eq_zero_iff hosc

/-- Witness for the amended claim C10 at the default oscillator and prescale
byte 3. -/
theorem pulselength_eq_zero_iff_witness :
    pulselength FREQUENCY_OSCILLATOR 3 = 0 ↔ 1000000 * (3 + 1) < FREQUENCY_OSCILLATOR :=
  pulselength_eq_zero_iff FREQUENCY_OSCILLATOR 3 (by decide)

end PCA9685
